import Mathlib

/-!
Verification of the sous rectification engine against its specification.

This file shallowly embeds the parts of the sous code base that the claims
C1..C10 concern: the deployment value model and Deployment.Diff / Equal
(lib/deployment.go), the ResolveRecorder (lib/resolvestatus.go) and the
client-side StatusPoller (lib/status_poller.go).  Pure Go functions become
Lean functions; Go panics become Except.error; mutable heap structure
(slices shared by reference) is made explicit with numeric references.

Definitions are translated from the source.  Types whose defining files are
not part of the provided sources (DeployConfig, SourceID.Equal, the resolve
filter predicates, IsTransientResolveError, the resolver runner) are marked
with doc comments beginning with Modelled from the spec.
-/

namespace Sous

/-- SourceLocation identifies a body of source code: repository and offset
directory (lib/sourcelocation.go; fields per spec section 3). -/
structure SourceLocation where
  Repo : String
  Dir : String
deriving DecidableEq, Repr

/-- Modelled from the spec: SourceID pairs a SourceLocation with a version
(semver string); the defining file is not under src/.  Equality is
structural per spec section 3. -/
structure SourceID where
  Location : SourceLocation
  Version : String
deriving DecidableEq, Repr

/-- Modelled from the spec: SourceID.Equal is structural equality on
location and version (the Go method is not under src/). -/
def SourceID.Equal (a b : SourceID) : Prop := a = b

instance : DecidablePred fun p : SourceID × SourceID => p.1.Equal p.2 :=
  fun p => inferInstanceAs (Decidable (p.1 = p.2))

instance (a b : SourceID) : Decidable (a.Equal b) :=
  inferInstanceAs (Decidable (a = b))

/-- ManifestID identifies a manifest: source location plus flavor
(per spec section 3 and the ManifestID construction in lib/deployment.go). -/
structure ManifestID where
  Source : SourceLocation
  Flavor : String
deriving DecidableEq, Repr

/-- DeploymentID identifies a deployment: manifest id plus cluster
(per spec section 3 and Deployment.ID in lib/deployment.go). -/
structure DeploymentID where
  ManifestID : ManifestID
  Cluster : String
deriving DecidableEq, Repr

/-- Modelled from the spec: ManifestKind is one of Service, Scheduled,
OnDemand (spec section 3; the Go declaration is not under src/). -/
inductive ManifestKind where
  | service
  | scheduled
  | onDemand
deriving DecidableEq, Repr

/-- Modelled from the spec: DeployConfig carries resources, env,
num_instances, startup, volumes, singularity_request_id (the comparison
field list of spec section 4.1) plus the schedule string (spec section 3:
Scheduled kind requires a non-empty schedule).  The Go declaration is not
under src/. -/
structure DeployConfig where
  Resources : List (String × String)
  Env : List (String × String)
  NumInstances : Int
  Startup : String
  Volumes : List String
  SingularityRequestID : String
  Schedule : String
deriving DecidableEq, Repr

/-- Modelled from the spec: DeployConfig.Diff compares exactly the fields
enumerated in spec section 4.1 for deploy_config (resources, env,
num_instances, startup, volumes, singularity_request_id); schedule is
handled separately by Deployment.Diff for Scheduled kind only.  Returns the
pair (any differences, difference descriptions) as in Go. -/
def DeployConfig.Diff (a b : DeployConfig) : Bool × List String :=
  let diffs : List String :=
    (if a.Resources ≠ b.Resources then ["resources"] else []) ++
    (if a.Env ≠ b.Env then ["env"] else []) ++
    (if a.NumInstances ≠ b.NumInstances then ["num instances"] else []) ++
    (if a.Startup ≠ b.Startup then ["startup"] else []) ++
    (if a.Volumes ≠ b.Volumes then ["volumes"] else []) ++
    (if a.SingularityRequestID ≠ b.SingularityRequestID
      then ["singularity request id"] else [])
  (!diffs.isEmpty, diffs)

/-- EqualFields states agreement on the six deploy_config comparison fields
of spec section 4.1 (everything except schedule).  This is the
specification-side description of deploy_config agreement used to compare
against the source Diff. -/
def DeployConfig.EqualFields (a b : DeployConfig) : Prop :=
  a.Resources = b.Resources ∧ a.Env = b.Env ∧ a.NumInstances = b.NumInstances ∧
  a.Startup = b.Startup ∧ a.Volumes = b.Volumes ∧
  a.SingularityRequestID = b.SingularityRequestID

instance (a b : DeployConfig) : Decidable (a.EqualFields b) := by
  unfold DeployConfig.EqualFields; infer_instance

/-- Deployment is a completely configured deployment of a piece of software
(lib/deployment.go).  The Cluster cache pointer is omitted: it is not
compared by Diff and is nil-safe derived data.  Owners is a set of strings
(OwnerSet in Go, a map used as a set). -/
structure Deployment where
  DeployConfig : DeployConfig
  ClusterName : String
  SourceID : SourceID
  Flavor : String
  Owners : Finset String
  Kind : ManifestKind
  User : String
deriving DecidableEq

/-- Schedule is promoted from the embedded DeployConfig, as Go field
promotion does for d.Schedule. -/
def Deployment.Schedule (d : Deployment) : String := d.DeployConfig.Schedule

/-- ManifestID of a deployment (lib/deployment.go ManifestID method). -/
def Deployment.ManifestID (d : Deployment) : ManifestID :=
  { Source := d.SourceID.Location, Flavor := d.Flavor }

/-- ID returns the DeploymentID of this deployment (lib/deployment.go ID
method). -/
def Deployment.ID (d : Deployment) : DeploymentID :=
  { ManifestID := d.ManifestID, Cluster := d.ClusterName }

/-- The list of difference descriptions accumulated by Deployment.Diff
(lib/deployment.go): one entry per differing compared field, one entry per
owner of d missing from o, plus the deploy config differences.  Individual
messages are abbreviated to their field names; only their presence
matters. -/
def Deployment.diffList (d o : Deployment) : List String :=
  (if d.ClusterName ≠ o.ClusterName then ["cluster name"] else []) ++
  (if ¬ d.SourceID.Equal o.SourceID then ["source id"] else []) ++
  (if d.Flavor ≠ o.Flavor then ["flavor"] else []) ++
  (if d.Kind ≠ o.Kind then ["kind"] else []) ++
  (if d.Kind = ManifestKind.scheduled ∧ d.Schedule ≠ o.Schedule
    then ["schedule"] else []) ++
  (if d.Owners.card ≠ o.Owners.card then ["number of owners"] else []) ++
  (List.replicate (d.Owners \ o.Owners).card "owner missing") ++
  (d.DeployConfig.Diff o.DeployConfig).2

/-- Diff returns the differences between this deployment and another
(lib/deployment.go).  The Go function panics when the two IDs differ; the
panic is embedded as Except.error. -/
def Deployment.Diff (d o : Deployment) : Except String (Bool × List String) :=
  if d.ID ≠ o.ID then
    Except.error "attempt to compare deployments with different IDs"
  else
    Except.ok (!(d.diffList o).isEmpty, d.diffList o)

/-- Equal returns true if two Deployments are equal (lib/deployment.go);
it propagates the Diff panic. -/
def Deployment.Equal (d o : Deployment) : Except String Bool :=
  (d.Diff o).map (fun p => !p.1)

/-- ResolutionType marks the kind of a DiffResolution
(lib/resolvestatus.go: a string type). -/
abbrev ResolutionType := String

/-- StableDiff - the active deployment is the intended deployment. -/
def StableDiff : ResolutionType := "unchanged"

/-- ComingDiff - the intended deployment is pending. -/
def ComingDiff : ResolutionType := "coming"

/-- CreateDiff - the intended deployment was missing and had to be created. -/
def CreateDiff : ResolutionType := "created"

/-- ModifyDiff - a deployment differed from the intended and was changed. -/
def ModifyDiff : ResolutionType := "updated"

/-- DeleteDiff - an unintended active deployment was deleted. -/
def DeleteDiff : ResolutionType := "deleted"

/-- Modelled from the spec: ErrorWrapper wraps an error; its defining file
is not under src/.  The transient flag records the classification made by
IsTransientResolveError, which the spec leaves implementation-defined. -/
structure ErrorWrapper where
  msg : String
  transient : Bool
deriving DecidableEq, Repr

/-- Modelled from the spec: IsTransientResolveError classifies resolution
errors as transient; the predicate itself is not under src/ and the spec
leaves its extension implementation-defined, so the embedding reads the
classification off the error value. -/
def IsTransientResolveError (e : ErrorWrapper) : Bool := e.transient

/-- DiffResolution is the result of applying a single diff
(lib/resolvestatus.go): an embedded DeploymentID, a description and an
optional error. -/
structure DiffResolution where
  DeploymentID : DeploymentID
  Desc : ResolutionType
  Error : Option ErrorWrapper
deriving DecidableEq, Repr

/-- ManifestID is promoted from the embedded DeploymentID, as Go field
promotion does for rez.ManifestID in diffResolutionFor. -/
def DiffResolution.ManifestID (rez : DiffResolution) : ManifestID :=
  rez.DeploymentID.ManifestID

/-- ResolveStatus captures the status of a Resolve (lib/resolvestatus.go).
Times are modelled as naturals; Errs is its list of ErrorWrapper causes. -/
structure ResolveStatus where
  Started : Nat
  Finished : Nat
  Phase : String
  Intended : List Deployment
  Log : List DiffResolution
  Errs : List ErrorWrapper
deriving DecidableEq

/-- A ResolveState reflects the state of the Sous clusters with regard to
resolving a particular SourceID (lib/status_poller.go: an int type whose
constants are declared with iota). -/
abbrev ResolveState := Nat

/-- ResolveNotPolled is the entry state (iota value 0). -/
def ResolveNotPolled : ResolveState := 0

/-- ResolveNotStarted: the server is not yet working on the location. -/
def ResolveNotStarted : ResolveState := 1

/-- ResolveNotVersion: the server is resolving a different version. -/
def ResolveNotVersion : ResolveState := 2

/-- ResolvePendingRequest: intent registered, no request made yet. -/
def ResolvePendingRequest : ResolveState := 3

/-- ResolveInProgress: a resolve action has been taken by the server. -/
def ResolveInProgress : ResolveState := 4

/-- ResolveTasksStarting: resolution complete, tasks starting in cluster. -/
def ResolveTasksStarting : ResolveState := 5

/-- ResolveErredHTTP: the HTTP request to the server returned an error. -/
def ResolveErredHTTP : ResolveState := 6

/-- ResolveErredRez: the resolving server reported a transient error. -/
def ResolveErredRez : ResolveState := 7

/-- ResolveNotIntended: the cluster does not intend to deploy this. -/
def ResolveNotIntended : ResolveState := 8

/-- ResolveFailed: resolution cannot proceed in this cluster. -/
def ResolveFailed : ResolveState := 9

/-- ResolveComplete is the success state. -/
def ResolveComplete : ResolveState := 10

/-- ResolveMAX is not a state itself: it marks the top end of resolutions. -/
def ResolveMAX : ResolveState := 11

/-- ResolveTERMINALS demarks resolution states that might proceed from
states that are complete (equal to ResolveNotIntended). -/
def ResolveTERMINALS : ResolveState := ResolveNotIntended

/-- The statusData payload of GET status (lib/status_poller.go): the
deprecated top-level Deployments list plus Completed and InProgress
resolve statuses, each possibly absent (nil pointer). -/
structure StatusData where
  Deployments : List Deployment
  Completed : Option ResolveStatus
  InProgress : Option ResolveStatus
deriving DecidableEq

/-- One result reported by a sub-poller (lib/status_poller.go pollResult). -/
structure PollResult where
  url : String
  stat : ResolveState
  err : Option ErrorWrapper
  resolveID : String
deriving DecidableEq, Repr

/-- Per-cluster poller state (lib/status_poller.go pollerState). -/
structure PollerState where
  LastResult : PollResult
  LastCycle : Bool
deriving DecidableEq, Repr

/-- The serverIntent helper (lib/status_poller.go): scan the Intended list
of a resolve status for deployments matched by the location filter; result
is the single match, or none when there is no match, when a second match is
found, or when the status itself is nil.  The filter is passed as the
predicate its FilterDeployment method denotes. -/
def serverIntentLoop (fd : Deployment → Bool) :
    List Deployment → Option Deployment → Option Deployment
  | [], acc => acc
  | d :: rest, acc =>
    if fd d then
      match acc with
      | some _ => none
      | none => serverIntentLoop fd rest (some d)
    else
      serverIntentLoop fd rest acc

/-- The serverIntent function over an optional resolve status. -/
def serverIntent (fd : Deployment → Bool) (rstat : Option ResolveStatus) :
    Option Deployment :=
  match rstat with
  | none => none
  | some r => serverIntentLoop fd r.Intended none

/-- The diffResolutionFor helper (lib/status_poller.go): the first log
entry of the resolve status whose ManifestID the filter matches.  The
filter is passed as the predicate its FilterManifestID method denotes. -/
def diffResolutionFor (fm : ManifestID → Bool) (rstat : Option ResolveStatus) :
    Option DiffResolution :=
  match rstat with
  | none => none
  | some r => r.Log.find? (fun rez => fm rez.ManifestID)

/-- The stateFeatures helper (lib/status_poller.go): the pair of server
intent (location filter) and diff resolution (location filter) drawn from
one resolve status. -/
def stateFeatures (fd : Deployment → Bool) (fm : ManifestID → Bool)
    (rezState : Option ResolveStatus) :
    Option Deployment × Option DiffResolution :=
  (serverIntent fd rezState, diffResolutionFor fm rezState)

/-- computeState (lib/status_poller.go) takes the server intended
deployment and the current DiffResolution and computes the resolution
state.  The id filter is passed as the predicate its FilterDeployment
method denotes. -/
def computeState (idFilter : Deployment → Bool)
    (srvIntent : Option Deployment) (current : Option DiffResolution) :
    ResolveState × Option ErrorWrapper :=
  match srvIntent with
  | none => (ResolveNotStarted, none)
  | some intent =>
    if ¬ idFilter intent then (ResolveNotVersion, none)
    else
      match current with
      | none => (ResolvePendingRequest, none)
      | some cur =>
        match cur.Error with
        | some e =>
          if IsTransientResolveError e then (ResolveErredRez, some e)
          else (ResolveFailed, some e)
        | none =>
          if cur.Desc = StableDiff then (ResolveComplete, none)
          else if cur.Desc = ComingDiff then (ResolveTasksStarting, none)
          else (ResolveInProgress, none)

/-- The state computation of pollOnce after a successful GET status
(lib/status_poller.go lines 394-403), over the two snapshots: compute from
the in-progress snapshot; when that yields NotStarted, NotVersion or
PendingRequest, re-run against the completed snapshot. -/
def subPollerCompute (fd : Deployment → Bool) (fm : ManifestID → Bool)
    (idFilter : Deployment → Bool)
    (inProgress completed : Option ResolveStatus) :
    ResolveState × Option ErrorWrapper :=
  let feat := stateFeatures fd fm inProgress
  let res := computeState idFilter feat.1 feat.2
  if res.1 = ResolveNotStarted ∨ res.1 = ResolveNotVersion ∨
      res.1 = ResolvePendingRequest then
    let featC := stateFeatures fd fm completed
    computeState idFilter featC.1 featC.2
  else
    res

/-- The backwards-compatibility fixup of pollOnce (lib/status_poller.go
lines 385-392): when Completed (respectively InProgress) is present and its
Intended list is empty, copy the top-level Deployments list into it. -/
def fixupStatusData (data : StatusData) : StatusData :=
  let d1 :=
    match data.Completed with
    | some c =>
      if c.Intended.length = 0 then
        { data with Completed := some { c with Intended := data.Deployments } }
      else data
    | none => data
  match d1.InProgress with
  | some ip =>
    if ip.Intended.length = 0 then
      { d1 with InProgress := some { ip with Intended := d1.Deployments } }
    else d1
  | none => d1

/-- The result helper (lib/status_poller.go lines 366-369): build a
pollResult whose resolveID is derived from data.InProgress.Started.  The Go
code dereferences data.InProgress unconditionally, so a nil InProgress is a
panic, embedded as Except.error. -/
def subPollerResult (url : String) (rs : ResolveState) (data : StatusData)
    (err : Option ErrorWrapper) : Except String PollResult :=
  match data.InProgress with
  | none => Except.error "nil pointer dereference in result"
  | some ip =>
    Except.ok { url := url, stat := rs, err := err, resolveID := toString ip.Started }

/-- pollOnce (lib/status_poller.go lines 371-404) as a function of the
outcome of the GET status call.  The httpErr argument is the error
returned by Retrieve (none on success) and data is the statusData value
after the call: Retrieve leaves it at its zero value (empty lists, nil
pointers) when the request fails outright.  Returns the poll result plus
the new consecutive HTTP error counter, or a panic. -/
def pollOnce (fd : Deployment → Bool) (fm : ManifestID → Bool)
    (idFilter : Deployment → Bool) (url : String) (httpErrorCount : Nat)
    (httpErr : Option ErrorWrapper) (data : StatusData) :
    Except String (PollResult × Nat) :=
  match httpErr with
  | some e =>
    let count := httpErrorCount + 1
    if count > 10 then
      (subPollerResult url ResolveFailed data
        (some { msg := "more than 10 HTTP errors, giving up; latest error: " ++ e.msg,
                transient := e.transient })).map (fun r => (r, count))
    else
      (subPollerResult url ResolveErredHTTP data (some e)).map (fun r => (r, count))
  | none =>
    let d := fixupStatusData data
    let res := subPollerCompute fd fm idFilter d.InProgress d.Completed
    (subPollerResult url res.1 d res.2).map (fun r => (r, 0))

/-- nextSubStatus (lib/status_poller.go lines 298-311) as a transition of
one cluster entry of statePerCluster.  When a previous entry exists for the
update url and its recorded resolveID is non-empty and differs from the
incoming one, the Go code panics with LAST_CYCLE_W00t before reaching the
statement that would set LastCycle; the panic is embedded as Except.error.
Otherwise the entry keeps its LastCycle flag (false on first insertion) and
records the update as LastResult. -/
def nextSubStatus (prev : Option PollerState) (update : PollResult) :
    Except String PollerState :=
  match prev with
  | some lastState =>
    if lastState.LastResult.resolveID ≠ "" ∧
        lastState.LastResult.resolveID ≠ update.resolveID then
      Except.error "LAST_CYCLE_W00t"
    else
      Except.ok { lastState with LastResult := update }
  | none =>
    Except.ok { LastResult := update, LastCycle := false }

/-- The loop body of updateStatus (lib/status_poller.go lines 313-337) over
a list of per-cluster states, carrying the accumulator the Go code calls
max.  A state still in its first cycle breaks out of the loop: it reports
ResolveInProgress when its state is beyond ResolveTERMINALS and the state
itself otherwise.  States past their first cycle fold the accumulator with
the Go quick-min update. -/
def updateStatusLoop : List PollerState → ResolveState → ResolveState
  | [], acc => acc
  | s :: rest, acc =>
    if ¬ s.LastCycle then
      if ResolveTERMINALS < s.LastResult.stat then ResolveInProgress
      else s.LastResult.stat
    else
      updateStatusLoop rest (if s.LastResult.stat ≤ acc then s.LastResult.stat else acc)

/-- updateStatus (lib/status_poller.go): fold the per-cluster states
starting from ResolveMAX; the result is the new aggregate status. -/
def updateStatus (states : List PollerState) : ResolveState :=
  updateStatusLoop states ResolveMAX

/-- The specification-side aggregate of spec section 4.6 item 7: the
maximum ResolveState across the clusters, for comparison against
updateStatus. -/
def specMaxAggregate (states : List PollerState) : ResolveState :=
  states.foldl (fun acc s => max acc s.LastResult.stat) 0

/-- The minimum aggregate: the least LastResult state across the clusters,
starting from ResolveMAX.  This is what updateStatus computes once every
cluster is past its first cycle. -/
def minAggregate (states : List PollerState) : ResolveState :=
  states.foldl (fun acc s => min acc s.LastResult.stat) ResolveMAX

/-! ## ResolveRecorder (lib/resolvestatus.go)

The recorder couples a runner goroutine (which emits DiffResolutions on the
Log channel, may record an error via doneWithError, and closes the channel
when it returns) with a drain goroutine (which appends each emitted
resolution to the status log, collects its error cause if any, and closes
the finished channel once the Log channel is closed and empty).  Wait
blocks on the finished channel.  The interleaving is embedded as a small
step relation over an explicit recorder state. -/

/-- The observable state of one ResolveRecorder run: the resolutions still
pending in the Log channel, the drained status log, the collected error
causes (status.Errs.Causes), whether the runner has returned (and closed
the Log channel), whether the finished channel has been closed, and the
recorder error field set by doneWithError. -/
structure RecorderState where
  pending : List DiffResolution
  logAcc : List DiffResolution
  causes : List ErrorWrapper
  runnerDone : Bool
  finishedClosed : Bool
  err : Option ErrorWrapper
deriving DecidableEq

/-- The initial recorder state built by NewResolveRecorder: empty log,
empty causes, open channels, no error. -/
def RecorderState.init : RecorderState :=
  { pending := [], logAcc := [], causes := [], runnerDone := false,
    finishedClosed := false, err := none }

/-- The cause list contributed by one drained resolution: its error, when
present (lib/resolvestatus.go drain goroutine). -/
def causeOf (rez : DiffResolution) : List ErrorWrapper :=
  match rez.Error with
  | some e => [e]
  | none => []

/-- One interleaving step of a ResolveRecorder run. The runner may emit a
resolution or record an error only while it has not returned; the drain
consumes pending resolutions in FIFO order; closing the Log channel is the
runner returning; the finished channel closes only after the Log channel is
closed and drained. -/
inductive RecorderStep : RecorderState → RecorderState → Prop where
  | emit (s : RecorderState) (rez : DiffResolution)
      (h : s.runnerDone = false) :
      RecorderStep s { s with pending := s.pending ++ [rez] }
  | recordErr (s : RecorderState) (e : ErrorWrapper)
      (h : s.runnerDone = false) :
      RecorderStep s { s with err := some e }
  | drain (s : RecorderState) (rez : DiffResolution) (rest : List DiffResolution)
      (h : s.pending = rez :: rest) :
      RecorderStep s { s with pending := rest, logAcc := s.logAcc ++ [rez],
                              causes := s.causes ++ causeOf rez }
  | closeLog (s : RecorderState) (h : s.runnerDone = false) :
      RecorderStep s { s with runnerDone := true }
  | closeFinished (s : RecorderState) (h1 : s.runnerDone = true)
      (h2 : s.pending = []) (h3 : s.finishedClosed = false) :
      RecorderStep s { s with finishedClosed := true }

/-- Reachability of recorder states from the initial state. -/
inductive RecorderReach : RecorderState → Prop where
  | init : RecorderReach RecorderState.init
  | step {s t : RecorderState} : RecorderReach s → RecorderStep s t →
      RecorderReach t

/-- The value Wait returns: either the runner error (Sum.inl) or the
accumulated ResolveErrors (Sum.inr), or none. -/
abbrev WaitError := Sum ErrorWrapper (List ErrorWrapper)

/-- The Err method of ResolveStatus (lib/resolvestatus.go): the collected
causes when there are any, nil otherwise. -/
def statusErr (causes : List ErrorWrapper) : Option WaitError :=
  if causes = [] then none else some (Sum.inr causes)

/-- The value computed by Wait after the finished channel closes
(lib/resolvestatus.go lines 151-161): the recorder error if set, otherwise
the status error. -/
def waitReturn (s : RecorderState) : Option WaitError :=
  match s.err with
  | some e => some (Sum.inl e)
  | none => statusErr s.causes

/-! ## Recorder phases (lib/resolvestatus.go performPhase / NewResolveRecorder) -/

/-- The phase-relevant recorder state: the advisory phase string and the
recorder error. -/
structure RecPhase where
  phase : String
  err : Option ErrorWrapper
deriving DecidableEq, Repr

/-- The earlyExit test (lib/resolvestatus.go): an error has been
recorded. -/
def RecPhase.earlyExit (s : RecPhase) : Bool := s.err.isSome

/-- performPhase (lib/resolvestatus.go lines 172-180): a no-op when
earlyExit holds; otherwise set the phase and run the phase body, recording
its error via doneWithError when it fails.  The phase body is summarised by
its name and its optional error. -/
def performPhase (s : RecPhase) (name : String) (bodyErr : Option ErrorWrapper) :
    RecPhase :=
  if s.earlyExit then s
  else
    let s1 : RecPhase := { s with phase := name }
    match bodyErr with
    | some e => { s1 with err := some e }
    | none => s1

/-- Modelled from the spec: the resolver runner (not under src/) performs
its phases through performPhase and, per spec section 4.4, sets the phase
to failed when the run has recorded an error.  Each phase is summarised by
its name and optional error. -/
def runnerBody (s0 : RecPhase) (phases : List (String × Option ErrorWrapper)) :
    RecPhase :=
  let s := phases.foldl (fun s p => performPhase s p.1 p.2) s0
  if s.err.isSome then { s with phase := "failed" } else s

/-- The finalisation in NewResolveRecorder (lib/resolvestatus.go lines
110-115): after the runner returns, set the phase to finished when no error
was recorded. -/
def finishRun (s : RecPhase) : RecPhase :=
  if s.err = none then { s with phase := "finished" } else s

/-- A full recorder run at the phase level: the runner performs its phases
from the zero-valued status and the constructor finalises. -/
def runRecorderPhases (phases : List (String × Option ErrorWrapper)) : RecPhase :=
  finishRun (runnerBody { phase := "", err := none } phases)

/-! ## CurrentStatus deep-copy model (lib/resolvestatus.go lines 129-138)

Go slices alias a backing array; CurrentStatus copies the status struct
shallowly and then replaces the Log and Errs.Causes slices with freshly
allocated copies, leaving Intended aliased.  Slice identity is made
explicit with numeric references into a heap of arrays. -/

/-- The heap of slice backing arrays owned by a recorder run, keyed by
reference. -/
structure RecorderHeap where
  intendedArr : Nat → List Deployment
  logArr : Nat → List DiffResolution
  causesArr : Nat → List ErrorWrapper

/-- A ResolveStatus value whose slice fields are references into a
RecorderHeap.  Scalar fields are copied by value in Go, so only the slice
fields matter for sharing. -/
structure StatusRef where
  Phase : String
  intendedRef : Nat
  logRef : Nat
  causesRef : Nat
deriving DecidableEq, Repr

/-- Pointwise update of a heap array map. -/
def updArr {α : Type} (m : Nat → List α) (r : Nat) (v : List α) : Nat → List α :=
  fun x => if x = r then v else m x

/-- CurrentStatus (lib/resolvestatus.go lines 129-138): copy the status
struct (rs is assigned the struct value, so Intended keeps its reference),
then allocate fresh arrays for Log and Errs.Causes holding copies of the
current contents.  The fresh references are supplied by the caller of the
model. -/
def currentStatus (h : RecorderHeap) (st : StatusRef)
    (freshLog freshCauses : Nat) : RecorderHeap × StatusRef :=
  ( { h with
        logArr := updArr h.logArr freshLog (h.logArr st.logRef),
        causesArr := updArr h.causesArr freshCauses (h.causesArr st.causesRef) },
    { st with logRef := freshLog, causesRef := freshCauses } )

/-- The drain goroutine mutation (lib/resolvestatus.go lines 94-101):
append one resolution to the status log and, when it carries an error,
append the cause.  Only the log and causes arrays of the internal status
are written; Intended is never written after construction. -/
def recorderAppend (h : RecorderHeap) (st : StatusRef) (rez : DiffResolution) :
    RecorderHeap :=
  { h with
      logArr := updArr h.logArr st.logRef (h.logArr st.logRef ++ [rez]),
      causesArr := updArr h.causesArr st.causesRef
        (h.causesArr st.causesRef ++ causeOf rez) }

/-! ## Sample values used by witnesses and counterexamples -/

/-- A sample deploy configuration. -/
def sampleConfig : DeployConfig :=
  { Resources := [("cpus", "1")], Env := [("A", "B")], NumInstances := 2,
    Startup := "checkReady", Volumes := [], SingularityRequestID := "r1",
    Schedule := "0 0 * * *" }

/-- A sample deployment in cluster c1. -/
def sampleDeployment : Deployment :=
  { DeployConfig := sampleConfig, ClusterName := "c1",
    SourceID := { Location := { Repo := "github.com/x/a", Dir := "" },
                  Version := "1.0.0" },
    Flavor := "", Owners := {"alice"}, Kind := ManifestKind.service,
    User := "u" }

/-- The sample deployment placed in cluster c2, so its ID differs from
sampleDeployment. -/
def sampleDeploymentC2 : Deployment :=
  { sampleDeployment with ClusterName := "c2" }

/-- A sample resolve status whose log carries one stable resolution for the
sample deployment. -/
def sampleStatus : ResolveStatus :=
  { Started := 3, Finished := 0, Phase := "applying",
    Intended := [sampleDeployment],
    Log := [{ DeploymentID := sampleDeployment.ID, Desc := StableDiff,
              Error := none }],
    Errs := [] }

/-- A sample transient error. -/
def sampleTransientErr : ErrorWrapper := { msg := "singularity 503", transient := true }

/-- A sample permanent error. -/
def samplePermanentErr : ErrorWrapper := { msg := "image not found", transient := false }

/-! ## Claim C1 -/

/-- Helper: with every cluster past its first cycle the updateStatus loop
is the fold of the Go quick-min update. -/
theorem updateStatusLoop_eq_foldl_min (l : List PollerState) (acc : ResolveState)
    (h : ∀ s ∈ l, s.LastCycle = true) :
    updateStatusLoop l acc =
      l.foldl (fun a s => min a s.LastResult.stat) acc := by
  induction l generalizing acc with
  | nil => rfl
  | cons s rest ih =>
    have hs : s.LastCycle = true := h s (by simp)
    have hrest : ∀ t ∈ rest, t.LastCycle = true := fun t ht => h t (by simp [ht])
    simp only [updateStatusLoop, hs, List.foldl_cons]
    rw [if_neg (by simp [hs])]
    rw [ih _ hrest]
    congr 1
    rw [min_comm, min_def]

/-- Counterexample to claim C1: two clusters both past their first cycle,
one Failed and one Complete.  The maximum of the two states under the
spec ordering is Complete, but updateStatus reports Failed: the Go loop
folds with a minimum, not a maximum. -/
theorem updateStatus_not_max_counterexample :
    updateStatus
      [ { LastResult := { url := "u1", stat := ResolveFailed, err := none,
                          resolveID := "a" }, LastCycle := true },
        { LastResult := { url := "u2", stat := ResolveComplete, err := none,
                          resolveID := "b" }, LastCycle := true } ] = ResolveFailed ∧
    specMaxAggregate
      [ { LastResult := { url := "u1", stat := ResolveFailed, err := none,
                          resolveID := "a" }, LastCycle := true },
        { LastResult := { url := "u2", stat := ResolveComplete, err := none,
                          resolveID := "b" }, LastCycle := true } ] = ResolveComplete ∧
    ResolveFailed ≠ ResolveComplete := by
  refine ⟨rfl, rfl, by decide⟩

/-- Claim C1 (amended): when every per-cluster poller state is past its
first cycle (LastCycle true), StatusPoller.updateStatus sets the aggregate
status to the minimum - not the maximum - ResolveState across all clusters
last results, starting the fold from ResolveMAX, under the ordering
NotPolled < NotStarted < NotVersion < PendingRequest < InProgress <
TasksStarting < ErrHTTP < ErrRez < NotIntended < Failed < Complete. -/
theorem updateStatus_is_min_when_all_last_cycle (states : List PollerState)
    (h : ∀ s ∈ states, s.LastCycle = true) :
    updateStatus states = minAggregate states := by
  unfold updateStatus minAggregate
  exact updateStatusLoop_eq_foldl_min states ResolveMAX h

/-- Witness for the amended C1 theorem at a concrete two-cluster input. -/
theorem updateStatus_is_min_witness :
    updateStatus
      [ { LastResult := { url := "u1", stat := ResolveFailed, err := none,
                          resolveID := "a" }, LastCycle := true },
        { LastResult := { url := "u2", stat := ResolveComplete, err := none,
                          resolveID := "b" }, LastCycle := true } ] =
      minAggregate
        [ { LastResult := { url := "u1", stat := ResolveFailed, err := none,
                            resolveID := "a" }, LastCycle := true },
          { LastResult := { url := "u2", stat := ResolveComplete, err := none,
                            resolveID := "b" }, LastCycle := true } ] :=
  updateStatus_is_min_when_all_last_cycle _ (by decide)

/-! ## Claim C2 -/

/-- Claim C2: the sub-poller state computation follows the spec rules.
For every pair of snapshots, with server intent and diff resolution drawn
by the filters: no server intent yields NotStarted; intent present but
rejected by the id filter (qualified by version and revision) yields
NotVersion; intent matching but no DiffResolution yields PendingRequest; a
transient resolution error yields ErrRez; a non-transient error yields
Failed; description unchanged yields Complete; description coming yields
TasksStarting; otherwise InProgress; and when the in-progress snapshot
yields NotStarted, NotVersion or PendingRequest, the same rules are re-run
against the completed snapshot and that result is returned. -/
theorem computeState_follows_spec_rules :
    (∀ (idf : Deployment → Bool) (cur : Option DiffResolution),
        computeState idf none cur = (ResolveNotStarted, none)) ∧
    (∀ (idf : Deployment → Bool) (dep : Deployment) (cur : Option DiffResolution),
        idf dep = false →
        computeState idf (some dep) cur = (ResolveNotVersion, none)) ∧
    (∀ (idf : Deployment → Bool) (dep : Deployment),
        idf dep = true →
        computeState idf (some dep) none = (ResolvePendingRequest, none)) ∧
    (∀ (idf : Deployment → Bool) (dep : Deployment) (cur : DiffResolution)
        (e : ErrorWrapper),
        idf dep = true → cur.Error = some e → IsTransientResolveError e = true →
        computeState idf (some dep) (some cur) = (ResolveErredRez, some e)) ∧
    (∀ (idf : Deployment → Bool) (dep : Deployment) (cur : DiffResolution)
        (e : ErrorWrapper),
        idf dep = true → cur.Error = some e → IsTransientResolveError e = false →
        computeState idf (some dep) (some cur) = (ResolveFailed, some e)) ∧
    (∀ (idf : Deployment → Bool) (dep : Deployment) (cur : DiffResolution),
        idf dep = true → cur.Error = none → cur.Desc = StableDiff →
        computeState idf (some dep) (some cur) = (ResolveComplete, none)) ∧
    (∀ (idf : Deployment → Bool) (dep : Deployment) (cur : DiffResolution),
        idf dep = true → cur.Error = none → cur.Desc = ComingDiff →
        computeState idf (some dep) (some cur) = (ResolveTasksStarting, none)) ∧
    (∀ (idf : Deployment → Bool) (dep : Deployment) (cur : DiffResolution),
        idf dep = true → cur.Error = none → cur.Desc ≠ StableDiff →
        cur.Desc ≠ ComingDiff →
        computeState idf (some dep) (some cur) = (ResolveInProgress, none)) ∧
    (∀ (fd : Deployment → Bool) (fm : ManifestID → Bool) (idf : Deployment → Bool)
        (inProgress completed : Option ResolveStatus),
        ((computeState idf (serverIntent fd inProgress)
            (diffResolutionFor fm inProgress)).1 = ResolveNotStarted ∨
         (computeState idf (serverIntent fd inProgress)
            (diffResolutionFor fm inProgress)).1 = ResolveNotVersion ∨
         (computeState idf (serverIntent fd inProgress)
            (diffResolutionFor fm inProgress)).1 = ResolvePendingRequest) →
        subPollerCompute fd fm idf inProgress completed =
          computeState idf (serverIntent fd completed)
            (diffResolutionFor fm completed)) ∧
    (∀ (fd : Deployment → Bool) (fm : ManifestID → Bool) (idf : Deployment → Bool)
        (inProgress completed : Option ResolveStatus),
        ¬ ((computeState idf (serverIntent fd inProgress)
              (diffResolutionFor fm inProgress)).1 = ResolveNotStarted ∨
           (computeState idf (serverIntent fd inProgress)
              (diffResolutionFor fm inProgress)).1 = ResolveNotVersion ∨
           (computeState idf (serverIntent fd inProgress)
              (diffResolutionFor fm inProgress)).1 = ResolvePendingRequest) →
        subPollerCompute fd fm idf inProgress completed =
          computeState idf (serverIntent fd inProgress)
            (diffResolutionFor fm inProgress)) := by
  refine ⟨?_, ?_, ?_, ?_, ?_, ?_, ?_, ?_, ?_, ?_⟩
  · intro idf cur
    rfl
  · intro idf dep cur h
    simp [computeState, h]
  · intro idf dep h
    simp [computeState, h]
  · intro idf dep cur e h he ht
    simp [computeState, h, he, ht]
  · intro idf dep cur e h he ht
    simp [computeState, h, he, ht]
  · intro idf dep cur h he hd
    simp [computeState, h, he, hd]
  · intro idf dep cur h he hd
    have hne : ¬ (ComingDiff = StableDiff) := by decide
    simp [computeState, h, he, hd, hne]
  · intro idf dep cur h he hd1 hd2
    simp [computeState, h, he, hd1, hd2]
  · intro fd fm idf inProgress completed h
    simp only [subPollerCompute, stateFeatures]
    rw [if_pos h]
  · intro fd fm idf inProgress completed h
    simp only [subPollerCompute, stateFeatures]
    rw [if_neg h]

/-- Witness for the C2 theorem: each hypothesised rule applied at a
concrete input. -/
theorem computeState_follows_spec_rules_witness :
    (computeState (fun _ => true) none none = (ResolveNotStarted, none)) ∧
    (computeState (fun _ => false) (some sampleDeployment) none =
      (ResolveNotVersion, none)) ∧
    (computeState (fun _ => true) (some sampleDeployment) none =
      (ResolvePendingRequest, none)) ∧
    (computeState (fun _ => true) (some sampleDeployment)
        (some { DeploymentID := sampleDeployment.ID, Desc := ModifyDiff,
                Error := some sampleTransientErr }) =
      (ResolveErredRez, some sampleTransientErr)) ∧
    (computeState (fun _ => true) (some sampleDeployment)
        (some { DeploymentID := sampleDeployment.ID, Desc := ModifyDiff,
                Error := some samplePermanentErr }) =
      (ResolveFailed, some samplePermanentErr)) ∧
    (computeState (fun _ => true) (some sampleDeployment)
        (some { DeploymentID := sampleDeployment.ID, Desc := StableDiff,
                Error := none }) = (ResolveComplete, none)) ∧
    (computeState (fun _ => true) (some sampleDeployment)
        (some { DeploymentID := sampleDeployment.ID, Desc := ComingDiff,
                Error := none }) = (ResolveTasksStarting, none)) ∧
    (computeState (fun _ => true) (some sampleDeployment)
        (some { DeploymentID := sampleDeployment.ID, Desc := ModifyDiff,
                Error := none }) = (ResolveInProgress, none)) ∧
    (subPollerCompute (fun _ => true) (fun _ => true) (fun _ => true)
        none (some sampleStatus) =
      computeState (fun _ => true)
        (serverIntent (fun _ => true) (some sampleStatus))
        (diffResolutionFor (fun _ => true) (some sampleStatus))) ∧
    (subPollerCompute (fun _ => true) (fun _ => true) (fun _ => true)
        (some sampleStatus) none =
      computeState (fun _ => true)
        (serverIntent (fun _ => true) (some sampleStatus))
        (diffResolutionFor (fun _ => true) (some sampleStatus))) :=
  ⟨computeState_follows_spec_rules.1 _ _,
   computeState_follows_spec_rules.2.1 _ sampleDeployment _ rfl,
   computeState_follows_spec_rules.2.2.1 _ sampleDeployment rfl,
   computeState_follows_spec_rules.2.2.2.1 _ sampleDeployment _ _ rfl rfl rfl,
   computeState_follows_spec_rules.2.2.2.2.1 _ sampleDeployment _ _ rfl rfl rfl,
   computeState_follows_spec_rules.2.2.2.2.2.1 _ sampleDeployment _ rfl rfl rfl,
   computeState_follows_spec_rules.2.2.2.2.2.2.1 _ sampleDeployment _ rfl rfl rfl,
   computeState_follows_spec_rules.2.2.2.2.2.2.2.1 _ sampleDeployment _ rfl rfl
     (by decide) (by decide),
   computeState_follows_spec_rules.2.2.2.2.2.2.2.2.1 _ _ _ none (some sampleStatus)
     (by decide),
   computeState_follows_spec_rules.2.2.2.2.2.2.2.2.2 _ _ _ (some sampleStatus) none
     (by decide)⟩

/-! ## Claim C3 -/

/-- Helper: a conditional singleton list is empty exactly when its
condition fails. -/
theorem ite_singleton_eq_nil {p : Prop} [Decidable p] {a : String} :
    ((if p then [a] else []) = []) ↔ ¬ p := by
  split <;> simp_all

/-- Helper: the deploy config diff list is empty exactly when the six
compared fields agree. -/
theorem deployConfig_diff_eq_nil_iff (a b : DeployConfig) :
    (a.Diff b).2 = [] ↔ a.EqualFields b := by
  unfold DeployConfig.Diff DeployConfig.EqualFields
  simp only [List.append_eq_nil, ite_singleton_eq_nil, not_not]
  tauto

/-- Agreement on every field Deployment.Diff compares except the
schedule. -/
def AgreeExceptSchedule (d o : Deployment) : Prop :=
  d.ClusterName = o.ClusterName ∧ d.SourceID = o.SourceID ∧
  d.Flavor = o.Flavor ∧ d.Kind = o.Kind ∧ d.Owners = o.Owners ∧
  d.DeployConfig.EqualFields o.DeployConfig

instance (d o : Deployment) : Decidable (AgreeExceptSchedule d o) := by
  unfold AgreeExceptSchedule; infer_instance

/-- Helper: the full diff list is empty exactly when the compared fields
agree, with the schedule compared only for Scheduled kind. -/
theorem diffList_eq_nil_iff (d o : Deployment) :
    d.diffList o = [] ↔
      (AgreeExceptSchedule d o ∧
       (d.Kind = ManifestKind.scheduled → d.Schedule = o.Schedule)) := by
  unfold Deployment.diffList AgreeExceptSchedule
  simp only [List.append_eq_nil, ite_singleton_eq_nil, not_not,
    List.replicate_eq_nil_iff, Finset.card_eq_zero,
    Finset.sdiff_eq_empty_iff_subset, deployConfig_diff_eq_nil_iff,
    SourceID.Equal, not_and, not_not]
  constructor
  · intro h
    have hcard : d.Owners.card = o.Owners.card := by tauto
    have hsub : d.Owners ⊆ o.Owners := by tauto
    have how : d.Owners = o.Owners :=
      Finset.eq_of_subset_of_card_le hsub (le_of_eq hcard.symm)
    tauto
  · intro h
    have how : d.Owners = o.Owners := by tauto
    have hcard : d.Owners.card = o.Owners.card := by rw [how]
    have hsub : d.Owners ⊆ o.Owners := by rw [how]
    tauto

/-- Helper: with equal IDs, Equal returns ok of the emptiness of the diff
list. -/
theorem deployment_equal_eq_ok (d o : Deployment) (h : d.ID = o.ID) :
    d.Equal o = Except.ok (d.diffList o).isEmpty := by
  simp [Deployment.Equal, Deployment.Diff, h, Except.map]

/-- Claim C3: for deployments with equal IDs, Equal is true exactly when
they agree on cluster_name, source_id, flavor, kind, owners (as a set) and
deploy_config, with the schedule compared only for Scheduled kind; hence
two Scheduled deployments differing only in schedule are unequal, while two
Service deployments differing only in schedule are equal. -/
theorem deployment_equal_iff_fields :
    (∀ d o : Deployment, d.ID = o.ID →
      (d.Equal o = Except.ok true ↔
        (AgreeExceptSchedule d o ∧
         (d.Kind = ManifestKind.scheduled → d.Schedule = o.Schedule)))) ∧
    (∀ d o : Deployment, d.ID = o.ID → d.Kind = ManifestKind.scheduled →
      AgreeExceptSchedule d o → d.Schedule ≠ o.Schedule →
      d.Equal o = Except.ok false) ∧
    (∀ d o : Deployment, d.ID = o.ID → d.Kind = ManifestKind.service →
      AgreeExceptSchedule d o → d.Schedule ≠ o.Schedule →
      d.Equal o = Except.ok true) := by
  have main : ∀ d o : Deployment, d.ID = o.ID →
      (d.Equal o = Except.ok true ↔
        (AgreeExceptSchedule d o ∧
         (d.Kind = ManifestKind.scheduled → d.Schedule = o.Schedule))) := by
    intro d o h
    rw [deployment_equal_eq_ok d o h]
    rw [← diffList_eq_nil_iff]
    constructor
    · intro he
      have : (d.diffList o).isEmpty = true := by
        injection he
      exact List.isEmpty_iff.mp this
    · intro he
      rw [List.isEmpty_iff.mpr he]
  refine ⟨main, ?_, ?_⟩
  · intro d o h hk hag hsch
    rw [deployment_equal_eq_ok d o h]
    have : d.diffList o ≠ [] := by
      intro hnil
      exact hsch (((diffList_eq_nil_iff d o).mp hnil).2 hk)
    have : (d.diffList o).isEmpty = false := by
      cases hl : d.diffList o with
      | nil => exact absurd hl this
      | cons a as => simp
    rw [this]
  · intro d o h hk hag hsch
    exact (main d o h).mpr ⟨hag, fun hcontra => by rw [hk] at hcontra; cases hcontra⟩

/-- A Scheduled variant of the sample deployment. -/
def sampleScheduled : Deployment :=
  { sampleDeployment with Kind := ManifestKind.scheduled }

/-- The Scheduled sample with a different schedule only. -/
def sampleScheduledAlt : Deployment :=
  { sampleScheduled with
      DeployConfig := { sampleConfig with Schedule := "1 1 * * *" } }

/-- The Service sample with a different schedule only. -/
def sampleServiceAlt : Deployment :=
  { sampleDeployment with
      DeployConfig := { sampleConfig with Schedule := "1 1 * * *" } }

/-- Witness for the C3 theorem: the iff applied at the sample deployment,
plus the two schedule corollaries at concrete Scheduled and Service
pairs. -/
theorem deployment_equal_iff_fields_witness :
    sampleDeployment.Equal sampleDeployment = Except.ok true ∧
    sampleScheduled.Equal sampleScheduledAlt = Except.ok false ∧
    sampleDeployment.Equal sampleServiceAlt = Except.ok true :=
  ⟨(deployment_equal_iff_fields.1 sampleDeployment sampleDeployment rfl).mpr
      (by decide),
   deployment_equal_iff_fields.2.1 sampleScheduled sampleScheduledAlt rfl rfl
      (by decide) (by decide),
   deployment_equal_iff_fields.2.2 sampleDeployment sampleServiceAlt rfl rfl
      (by decide) (by decide)⟩

/-! ## Claim C4 -/

/-- Claim C4 (code bug): when the resolveID recorded for a cluster is
non-empty and a subsequent update carries a different resolveID,
nextSubStatus panics with LAST_CYCLE_W00t instead of setting the LastCycle
flag - the assignment that would set it is dead code after the panic - and
on every non-panicking transition the LastCycle flag stays false, so a
cluster state with LastCycle true is never produced. -/
theorem nextSubStatus_panics_on_resolveID_change :
    nextSubStatus
      (some { LastResult := { url := "u", stat := ResolveInProgress, err := none,
                              resolveID := "3" }, LastCycle := false })
      { url := "u", stat := ResolveComplete, err := none, resolveID := "4" } =
      Except.error "LAST_CYCLE_W00t" ∧
    (∀ (update : PollResult) (st : PollerState),
      nextSubStatus none update = Except.ok st → st.LastCycle = false) ∧
    (∀ (prev : PollerState) (update : PollResult) (st : PollerState),
      prev.LastCycle = false → nextSubStatus (some prev) update = Except.ok st →
      st.LastCycle = false) := by
  refine ⟨rfl, ?_, ?_⟩
  · intro update st h
    simp only [nextSubStatus] at h
    cases h
    rfl
  · intro prev update st hprev h
    simp only [nextSubStatus] at h
    split at h
    · cases h
    · cases h
      exact hprev

/-- Witness for the C4 theorem: the non-panicking transitions applied at
concrete inputs keep LastCycle false. -/
theorem nextSubStatus_panics_on_resolveID_change_witness :
    ({ LastResult := { url := "u", stat := ResolveNotPolled, err := none,
                       resolveID := "" }, LastCycle := false } : PollerState).LastCycle
        = false ∧
    ({ LastResult := { url := "u", stat := ResolveInProgress, err := none,
                       resolveID := "3" }, LastCycle := false } : PollerState).LastCycle
        = false :=
  ⟨nextSubStatus_panics_on_resolveID_change.2.1
      { url := "u", stat := ResolveNotPolled, err := none, resolveID := "" } _ rfl,
   nextSubStatus_panics_on_resolveID_change.2.2
      { LastResult := { url := "u", stat := ResolveNotPolled, err := none,
                        resolveID := "" }, LastCycle := false }
      { url := "u", stat := ResolveInProgress, err := none, resolveID := "3" } _
      rfl rfl⟩

/-! ## Claim C5 -/

/-- Claim C5 (code bug): on an HTTP error the Go code does increment the
consecutive error counter and chooses ErrHTTP (or Failed past 10 failures),
but the result helper then dereferences data.InProgress.Started.  When the
failed request leaves the response at its zero value - the ordinary
transport failure - InProgress is nil, so pollOnce panics instead of
returning the ErrHTTP result.  When the error response does carry an
InProgress status, the counter and state behaviour follow the claim, and a
successful poll resets the counter to zero. -/
theorem pollOnce_http_error_nil_deref :
    pollOnce (fun _ => true) (fun _ => true) (fun _ => true) "http://c1" 0
        (some { msg := "connection refused", transient := false })
        { Deployments := [], Completed := none, InProgress := none } =
      Except.error "nil pointer dereference in result" ∧
    (∀ (fd fm : _) (idf : Deployment → Bool) (url : String) (count : Nat)
        (e : ErrorWrapper) (data : StatusData) (ip : ResolveStatus),
      data.InProgress = some ip → count + 1 ≤ 10 →
      pollOnce fd fm idf url count (some e) data =
        Except.ok ({ url := url, stat := ResolveErredHTTP, err := some e,
                     resolveID := toString ip.Started }, count + 1)) ∧
    (∀ (fd fm : _) (idf : Deployment → Bool) (url : String) (count : Nat)
        (e : ErrorWrapper) (data : StatusData) (ip : ResolveStatus),
      data.InProgress = some ip → count + 1 > 10 →
      pollOnce fd fm idf url count (some e) data =
        Except.ok ({ url := url, stat := ResolveFailed,
                     err := some { msg := "more than 10 HTTP errors, giving up; latest error: "
                                     ++ e.msg,
                                   transient := e.transient },
                     resolveID := toString ip.Started }, count + 1)) ∧
    (∀ (fd fm : _) (idf : Deployment → Bool) (url : String) (count : Nat)
        (data : StatusData) (r : PollResult × Nat),
      pollOnce fd fm idf url count none data = Except.ok r → r.2 = 0) := by
  refine ⟨rfl, ?_, ?_, ?_⟩
  · intro fd fm idf url count e data ip hip hcount
    simp only [pollOnce, subPollerResult, hip]
    rw [if_neg (by omega)]
    rfl
  · intro fd fm idf url count e data ip hip hcount
    simp only [pollOnce, subPollerResult, hip]
    rw [if_pos (by omega)]
    rfl
  · intro fd fm idf url count data r h
    simp only [pollOnce] at h
    cases hres : (subPollerResult url
        (subPollerCompute fd fm idf (fixupStatusData data).InProgress
          (fixupStatusData data).Completed).1 (fixupStatusData data)
        (subPollerCompute fd fm idf (fixupStatusData data).InProgress
          (fixupStatusData data).Completed).2) with
    | error e =>
      rw [hres] at h
      cases h
    | ok pr =>
      rw [hres] at h
      cases h
      rfl

/-- Witness for the C5 theorem: the ErrHTTP, Failed and reset branches
applied at concrete inputs. -/
theorem pollOnce_http_error_nil_deref_witness :
    pollOnce (fun _ => true) (fun _ => true) (fun _ => true) "http://c1" 0
        (some { msg := "boom", transient := false })
        { Deployments := [], Completed := none, InProgress := some sampleStatus } =
      Except.ok ({ url := "http://c1", stat := ResolveErredHTTP,
                   err := some { msg := "boom", transient := false },
                   resolveID := toString sampleStatus.Started }, 1) ∧
    pollOnce (fun _ => true) (fun _ => true) (fun _ => true) "http://c1" 10
        (some { msg := "boom", transient := false })
        { Deployments := [], Completed := none, InProgress := some sampleStatus } =
      Except.ok ({ url := "http://c1", stat := ResolveFailed,
                   err := some { msg := "more than 10 HTTP errors, giving up; latest error: boom",
                                 transient := false },
                   resolveID := toString sampleStatus.Started }, 11) ∧
    (({ url := "http://c1", stat := ResolveComplete, err := none,
        resolveID := "3" }, 0) : PollResult × Nat).2 = 0 :=
  ⟨pollOnce_http_error_nil_deref.2.1 _ _ _ "http://c1" 0 _ _ sampleStatus rfl
      (by omega),
   pollOnce_http_error_nil_deref.2.2.1 _ _ _ "http://c1" 10 _ _ sampleStatus rfl
      (by omega),
   pollOnce_http_error_nil_deref.2.2.2 (fun _ => true) (fun _ => true)
      (fun _ => true) "http://c1" 7
      { Deployments := [], Completed := none, InProgress := some sampleStatus }
      ({ url := "http://c1", stat := ResolveComplete, err := none,
         resolveID := "3" }, 0) rfl⟩

/-! ## Claim C6 -/

/-- A sample resolution carrying a transient error, drained during the C6
witness run. -/
def sampleFailRez : DiffResolution :=
  { DeploymentID := sampleDeployment.ID, Desc := ModifyDiff,
    Error := some sampleTransientErr }

/-- Helper invariant for recorder runs: the collected causes are exactly
the errors of the drained log entries, and the finished channel closes only
after the runner has returned and the Log channel has been drained. -/
theorem recorder_reach_invariant (s : RecorderState) (h : RecorderReach s) :
    s.causes = s.logAcc.filterMap (fun rez => rez.Error) ∧
    (s.finishedClosed = true → s.runnerDone = true ∧ s.pending = []) := by
  induction h with
  | init => exact ⟨rfl, by intro h; cases h⟩
  | step hreach hstep ih =>
    cases hstep with
    | emit rez h =>
      refine ⟨ih.1, ?_⟩
      intro hf
      have hrd := (ih.2 hf).1
      rw [hrd] at h
      cases h
    | recordErr e h =>
      exact ⟨ih.1, ih.2⟩
    | drain rez rest h =>
      refine ⟨?_, ?_⟩
      · show _ ++ causeOf rez = List.filterMap _ (_ ++ [rez])
        rw [List.filterMap_append, ← ih.1]
        congr 1
        cases herr : rez.Error with
        | none => simp [causeOf, herr]
        | some e => simp [causeOf, herr]
      · intro hf
        have hpend := (ih.2 hf).2
        rw [hpend] at h
        cases h
    | closeLog h =>
      exact ⟨ih.1, fun hf => ⟨rfl, (ih.2 hf).2⟩⟩
    | closeFinished h1 h2 h3 =>
      exact ⟨ih.1, fun _ => ⟨h1, h2⟩⟩

/-- Claim C6: in every reachable recorder state where the finished channel
has closed - the states in which Wait returns - the runner has returned and
the drain has consumed the whole Log channel; Wait returns the recorder
error when one was set, and only when it is nil does it return the error
accumulated from the per-diff resolutions (nil when there were none), those
accumulated causes being exactly the errors of the drained resolutions, so
no recorded error is dropped. -/
theorem recorder_wait_error_priority (s : RecorderState)
    (hreach : RecorderReach s) (hfin : s.finishedClosed = true) :
    (s.runnerDone = true ∧ s.pending = []) ∧
    s.causes = s.logAcc.filterMap (fun rez => rez.Error) ∧
    (∀ e, s.err = some e → waitReturn s = some (Sum.inl e)) ∧
    (s.err = none → waitReturn s = statusErr s.causes) := by
  obtain ⟨hcauses, hflags⟩ := recorder_reach_invariant s hreach
  refine ⟨hflags hfin, hcauses, ?_, ?_⟩
  · intro e he
    simp [waitReturn, he]
  · intro he
    simp [waitReturn, he]

/-- Witness for the C6 theorem: a recorder run that emits one failing
resolution, records a runner error, drains, and closes down; Wait returns
the runner error, superseding the drained transient cause. -/
theorem recorder_wait_error_priority_witness :
    waitReturn
      { pending := [], logAcc := [sampleFailRez],
        causes := [sampleTransientErr], runnerDone := true,
        finishedClosed := true, err := some samplePermanentErr } =
      some (Sum.inl samplePermanentErr) := by
  have h0 : RecorderReach RecorderState.init := RecorderReach.init
  have h1 := RecorderReach.step h0
    (RecorderStep.emit RecorderState.init sampleFailRez rfl)
  have h2 := RecorderReach.step h1
    (RecorderStep.recordErr _ samplePermanentErr rfl)
  have h3 := RecorderReach.step h2 (RecorderStep.drain _ sampleFailRez [] rfl)
  have h4 := RecorderReach.step h3 (RecorderStep.closeLog _ rfl)
  have h5 := RecorderReach.step h4 (RecorderStep.closeFinished _ rfl rfl rfl)
  have h6 : RecorderReach
      { pending := [], logAcc := [sampleFailRez],
        causes := [sampleTransientErr], runnerDone := true,
        finishedClosed := true, err := some samplePermanentErr } := h5
  exact (recorder_wait_error_priority _ h6 rfl).2.2.1 samplePermanentErr rfl

/-! ## Claim C7 -/

/-- Claim C7: the recorder phase transitions.  When the runner records no
error the constructor sets the phase to finished; when the runner records
an error the phase ends as failed; and once the phase is failed, any
further performPhase is a no-op.  The phase=failed write itself lives in
the resolver runner, which is modelled from the spec (runnerBody); the
finished write and the performPhase guard are translated from
lib/resolvestatus.go. -/
theorem recorder_phase_transitions :
    (∀ phases : List (String × Option ErrorWrapper),
      (runnerBody { phase := "", err := none } phases).err = none →
      (runRecorderPhases phases).phase = "finished") ∧
    (∀ phases : List (String × Option ErrorWrapper),
      (runnerBody { phase := "", err := none } phases).err.isSome = true →
      (runRecorderPhases phases).phase = "failed") ∧
    (∀ (phases : List (String × Option ErrorWrapper)) (name : String)
        (bodyErr : Option ErrorWrapper),
      (runRecorderPhases phases).phase = "failed" →
      performPhase (runRecorderPhases phases) name bodyErr =
        runRecorderPhases phases) := by
  refine ⟨?_, ?_, ?_⟩
  · intro phases h
    unfold runRecorderPhases finishRun
    rw [if_pos h]
  · intro phases h
    have hne : (runnerBody { phase := "", err := none } phases).err ≠ none :=
      Option.ne_none_iff_isSome.mpr h
    have hF : ((phases.foldl (fun s p => performPhase s p.1 p.2)
        { phase := "", err := none } : RecPhase)).err.isSome = true := by
      simp only [runnerBody] at h
      split at h <;> assumption
    unfold runRecorderPhases finishRun
    rw [if_neg hne]
    simp only [runnerBody, hF, if_true]
  · intro phases name bodyErr hfail
    have hsome : (runRecorderPhases phases).err.isSome = true := by
      by_contra hnone
      have h0 : (runRecorderPhases phases).err = none :=
        Option.not_isSome_iff_eq_none.mp hnone
      have hfin : (runRecorderPhases phases).phase = "finished" := by
        unfold runRecorderPhases finishRun at h0 ⊢
        split at h0
        · rw [if_pos (by assumption)]
        · exact absurd h0 (by assumption)
      rw [hfin] at hfail
      exact absurd hfail (by decide)
    unfold performPhase RecPhase.earlyExit
    rw [if_pos hsome]

/-- Witness for the C7 theorem: a successful two-phase run finishes, a run
whose second phase fails ends failed, and a further performPhase on the
failed run is a no-op. -/
theorem recorder_phase_transitions_witness :
    (runRecorderPhases [("starting", none), ("applying", none)]).phase =
      "finished" ∧
    (runRecorderPhases
        [("starting", none), ("applying", some samplePermanentErr)]).phase =
      "failed" ∧
    performPhase
        (runRecorderPhases
          [("starting", none), ("applying", some samplePermanentErr)])
        "extra" none =
      runRecorderPhases
        [("starting", none), ("applying", some samplePermanentErr)] :=
  ⟨recorder_phase_transitions.1 _ rfl,
   recorder_phase_transitions.2.1 _ rfl,
   recorder_phase_transitions.2.2 _ "extra" none
     (recorder_phase_transitions.2.1 _ rfl)⟩

/-! ## Claim C8 -/

/-- Claim C8: when Completed (respectively InProgress) is present with an
empty Intended list, pollOnce copies the top-level Deployments list into
that Intended field; consequently a poll of an old server response that
omits Intended computes exactly the same result as a poll of a new server
response that pre-populates Intended with the same deployments. -/
theorem pollOnce_backcompat_intended :
    (∀ (data : StatusData) (c : ResolveStatus), data.Completed = some c →
      c.Intended = [] →
      (fixupStatusData data).Completed =
        some { c with Intended := data.Deployments }) ∧
    (∀ (data : StatusData) (ip : ResolveStatus), data.InProgress = some ip →
      ip.Intended = [] →
      (fixupStatusData data).InProgress =
        some { ip with Intended := data.Deployments }) ∧
    (∀ (fd : Deployment → Bool) (fm : ManifestID → Bool)
        (idf : Deployment → Bool) (url : String) (count : Nat)
        (deps : List Deployment) (c ip : ResolveStatus),
      pollOnce fd fm idf url count none
        { Deployments := deps, Completed := some { c with Intended := [] },
          InProgress := some { ip with Intended := [] } } =
      pollOnce fd fm idf url count none
        { Deployments := deps, Completed := some { c with Intended := deps },
          InProgress := some { ip with Intended := deps } }) := by
  have hfix : ∀ (deps : List Deployment) (c ip : ResolveStatus),
      fixupStatusData
        { Deployments := deps, Completed := some { c with Intended := [] },
          InProgress := some { ip with Intended := [] } } =
      { Deployments := deps, Completed := some { c with Intended := deps },
        InProgress := some { ip with Intended := deps } } := by
    intro deps c ip
    simp [fixupStatusData]
  have hfix2 : ∀ (deps : List Deployment) (c ip : ResolveStatus),
      fixupStatusData
        { Deployments := deps, Completed := some { c with Intended := deps },
          InProgress := some { ip with Intended := deps } } =
      { Deployments := deps, Completed := some { c with Intended := deps },
        InProgress := some { ip with Intended := deps } } := by
    intro deps c ip
    cases hd : deps with
    | nil => simp [fixupStatusData, hd]
    | cons a as => simp [fixupStatusData, hd]
  refine ⟨?_, ?_, ?_⟩
  · intro data c hc hint
    cases data with
    | mk deps comp ip =>
      cases ip with
      | none =>
        simp only at hc
        simp [fixupStatusData, hc, hint]
      | some ipv =>
        simp only at hc
        by_cases hip : ipv.Intended.length = 0
        · simp [fixupStatusData, hc, hint, hip]
        · simp [fixupStatusData, hc, hint, hip]
  · intro data ip hip hint
    cases data with
    | mk deps comp ipf =>
      simp only at hip
      subst hip
      cases comp with
      | none => simp [fixupStatusData, hint]
      | some cv =>
        by_cases hcv : cv.Intended.length = 0
        · simp [fixupStatusData, hint, hcv]
        · simp [fixupStatusData, hint, hcv]
  · intro fd fm idf url count deps c ip
    simp only [pollOnce]
    rw [hfix, hfix2]

/-- Witness for the C8 theorem: the fixup and the old/new equivalence at a
concrete response carrying one deployment. -/
theorem pollOnce_backcompat_intended_witness :
    (fixupStatusData
        { Deployments := [sampleDeployment],
          Completed := some { sampleStatus with Intended := [] },
          InProgress := none }).Completed =
      some { sampleStatus with Intended := [sampleDeployment] } ∧
    (fixupStatusData
        { Deployments := [sampleDeployment], Completed := none,
          InProgress := some { sampleStatus with Intended := [] } }).InProgress =
      some { sampleStatus with Intended := [sampleDeployment] } ∧
    pollOnce (fun _ => true) (fun _ => true) (fun _ => true) "http://c1" 0 none
        { Deployments := [sampleDeployment],
          Completed := some { sampleStatus with Intended := [] },
          InProgress := some { sampleStatus with Intended := [] } } =
      pollOnce (fun _ => true) (fun _ => true) (fun _ => true) "http://c1" 0 none
        { Deployments := [sampleDeployment],
          Completed := some { sampleStatus with Intended := [sampleDeployment] },
          InProgress := some { sampleStatus with Intended := [sampleDeployment] } } :=
  ⟨pollOnce_backcompat_intended.1 _ { sampleStatus with Intended := [] } rfl rfl,
   pollOnce_backcompat_intended.2.1 _ { sampleStatus with Intended := [] } rfl rfl,
   pollOnce_backcompat_intended.2.2 _ _ _ "http://c1" 0 [sampleDeployment]
     sampleStatus sampleStatus⟩

/-! ## Claim C9 -/

/-- A sample internal status reference layout: Intended at reference 0,
Log at reference 1, Causes at reference 2. -/
def sampleStatusRef : StatusRef :=
  { Phase := "applying", intendedRef := 0, logRef := 1, causesRef := 2 }

/-- A sample recorder heap holding the sample intended deployment, one log
entry and no causes at the references of sampleStatusRef. -/
def sampleHeap : RecorderHeap :=
  { intendedArr := fun r => if r = 0 then [sampleDeployment] else [],
    logArr := fun r => if r = 1 then [sampleFailRez] else [],
    causesArr := fun r => if r = 2 then [sampleTransientErr] else [] }

/-- Counterexample to claim C9: the snapshot returned by CurrentStatus
keeps the internal Intended slice reference (Go copies the struct
shallowly and only re-allocates Log and Errs.Causes), so the snapshot and
the recorder internal status do share mutable structure through Intended. -/
theorem currentStatus_shares_intended_counterexample :
    ((currentStatus sampleHeap sampleStatusRef 10 11).2.intendedRef =
      sampleStatusRef.intendedRef) ∧
    sampleStatusRef.intendedRef ≠ 10 ∧ sampleStatusRef.intendedRef ≠ 11 := by
  refine ⟨rfl, by decide, by decide⟩

/-- Claim C9 (amended): CurrentStatus returns a snapshot whose Log and
Errs.Causes are fresh copies - given references outside the internal ones -
holding contents equal to the internal arrays at snapshot time, while the
Intended slice reference is returned as-is, shared with the internal
status; and because the recorder mutations after construction (the drain
appends) write only the internal Log and Causes arrays, they never change
the contents seen through a previously returned snapshot. -/
theorem currentStatus_snapshot_isolation (h : RecorderHeap) (st : StatusRef)
    (freshLog freshCauses : Nat) (hfl : freshLog ≠ st.logRef)
    (hfc : freshCauses ≠ st.causesRef) :
    ((currentStatus h st freshLog freshCauses).1.logArr
        (currentStatus h st freshLog freshCauses).2.logRef =
      h.logArr st.logRef) ∧
    ((currentStatus h st freshLog freshCauses).1.causesArr
        (currentStatus h st freshLog freshCauses).2.causesRef =
      h.causesArr st.causesRef) ∧
    ((currentStatus h st freshLog freshCauses).2.intendedRef =
      st.intendedRef) ∧
    (∀ rez : DiffResolution,
      (recorderAppend (currentStatus h st freshLog freshCauses).1 st rez).logArr
          (currentStatus h st freshLog freshCauses).2.logRef =
        (currentStatus h st freshLog freshCauses).1.logArr
          (currentStatus h st freshLog freshCauses).2.logRef ∧
      (recorderAppend (currentStatus h st freshLog freshCauses).1 st rez).causesArr
          (currentStatus h st freshLog freshCauses).2.causesRef =
        (currentStatus h st freshLog freshCauses).1.causesArr
          (currentStatus h st freshLog freshCauses).2.causesRef) := by
  refine ⟨?_, ?_, rfl, ?_⟩
  · simp [currentStatus, updArr]
  · simp [currentStatus, updArr]
  · intro rez
    constructor
    · simp only [currentStatus, recorderAppend, updArr]
      rw [if_neg hfl]
    · simp only [currentStatus, recorderAppend, updArr]
      rw [if_neg hfc]

/-- Witness for the amended C9 theorem at the sample heap with fresh
references 10 and 11. -/
theorem currentStatus_snapshot_isolation_witness :
    ((currentStatus sampleHeap sampleStatusRef 10 11).1.logArr
        (currentStatus sampleHeap sampleStatusRef 10 11).2.logRef =
      sampleHeap.logArr sampleStatusRef.logRef) ∧
    ((currentStatus sampleHeap sampleStatusRef 10 11).1.causesArr
        (currentStatus sampleHeap sampleStatusRef 10 11).2.causesRef =
      sampleHeap.causesArr sampleStatusRef.causesRef) ∧
    ((currentStatus sampleHeap sampleStatusRef 10 11).2.intendedRef =
      sampleStatusRef.intendedRef) ∧
    (∀ rez : DiffResolution,
      (recorderAppend (currentStatus sampleHeap sampleStatusRef 10 11).1
          sampleStatusRef rez).logArr
          (currentStatus sampleHeap sampleStatusRef 10 11).2.logRef =
        (currentStatus sampleHeap sampleStatusRef 10 11).1.logArr
          (currentStatus sampleHeap sampleStatusRef 10 11).2.logRef ∧
      (recorderAppend (currentStatus sampleHeap sampleStatusRef 10 11).1
          sampleStatusRef rez).causesArr
          (currentStatus sampleHeap sampleStatusRef 10 11).2.causesRef =
        (currentStatus sampleHeap sampleStatusRef 10 11).1.causesArr
          (currentStatus sampleHeap sampleStatusRef 10 11).2.causesRef) :=
  currentStatus_snapshot_isolation sampleHeap sampleStatusRef 10 11
    (by decide) (by decide)

/-! ## Claim C10 -/

/-- Claim C10: Deployment.Diff and Deployment.Equal return normally for
every pair with equal IDs, and panic (Go panic, embedded as Except.error)
on a concrete pair whose IDs differ, here the same deployment placed in
clusters c1 and c2. -/
theorem deployment_diff_total_on_equal_ids :
    (∀ d o : Deployment, d.ID = o.ID →
      d.Diff o = Except.ok (!(d.diffList o).isEmpty, d.diffList o) ∧
      d.Equal o = Except.ok (d.diffList o).isEmpty) ∧
    sampleDeployment.ID ≠ sampleDeploymentC2.ID ∧
    sampleDeployment.Diff sampleDeploymentC2 =
      Except.error "attempt to compare deployments with different IDs" ∧
    sampleDeployment.Equal sampleDeploymentC2 =
      Except.error "attempt to compare deployments with different IDs" := by
  refine ⟨?_, by decide, rfl, rfl⟩
  intro d o h
  constructor
  · simp [Deployment.Diff, h]
  · exact deployment_equal_eq_ok d o h

/-- Witness for the C10 theorem: the total branch applied at the sample
deployment compared with itself. -/
theorem deployment_diff_total_on_equal_ids_witness :
    sampleDeployment.Diff sampleDeployment =
      Except.ok (!(sampleDeployment.diffList sampleDeployment).isEmpty,
        sampleDeployment.diffList sampleDeployment) ∧
    sampleDeployment.Equal sampleDeployment =
      Except.ok (sampleDeployment.diffList sampleDeployment).isEmpty :=
  deployment_diff_total_on_equal_ids.1 sampleDeployment sampleDeployment rfl

end Sous
